import Mathlib

/-!
# A model of `src/lib/propellerimage.h` (PropellerImage)

Shallow embedding of the `PropellerImage` class from the propman
repository.  The repository ships the class declaration
(`src/lib/propellerimage.h`): the `ImageType` and `ImageFormat`
enumerations, the documented header layout (field offsets and widths),
and every member signature come from that header.  The member function
bodies are not part of the sources, so the semantics of each operation
is modelled from the specification, as noted on each definition.

Bytes are modelled as natural numbers; every read reduces a stored cell
modulo 256, every write stores the value modulo 256, matching the
`quint8` cells of the `QByteArray` buffer.  Multi-byte reads and writes
are little-endian, as the header documents.  Fallible reads return
`Option Nat` (`none` models the OutOfRange condition of the spec).
-/

namespace Propman

/-- The `ImageType` enumeration from the header:
`Invalid`, `Binary` (program data-only image), `Eeprom` (complete
32768-byte EEPROM image). -/
inductive ImageType where
  | Invalid
  | Binary
  | Eeprom
deriving DecidableEq, Repr

/-- `ImageFormat::_long_clockfrequency`: offset of the clock-frequency long. -/
def _long_clockfrequency : Nat := 0

/-- `ImageFormat::_byte_clockmode`: offset of the clock-mode byte. -/
def _byte_clockmode : Nat := 4

/-- `ImageFormat::_byte_checksum`: offset of the checksum byte. -/
def _byte_checksum : Nat := 5

/-- `ImageFormat::_word_code`: offset of the start-of-code word. -/
def _word_code : Nat := 6

/-- `ImageFormat::_word_variables`: offset of the start-of-variables word. -/
def _word_variables : Nat := 8

/-- `ImageFormat::_word_stackspace`: offset of the start-of-stack-space word. -/
def _word_stackspace : Nat := 10

/-- `ImageFormat::_size_eeprom`: total size of an EEPROM image. -/
def _size_eeprom : Nat := 32768

/-- The `PropellerImage` object state: the byte buffer `_image`, the
origin label `_filename`, and the key set of the per-instance
clock-mode table `_clkmodesettings`.

Modelled from the spec: the body of `initClockModeSettings()` (the
concrete entries of the clock-mode table) is not in the sources, so the
set of recognized keys is carried as a field and every statement about
`setClockMode` is proved for an arbitrary key set. -/
structure PropellerImage where
  _image : List Nat
  _filename : String
  clkmodeKeys : List Nat
deriving Repr

/-- The byte stored at position `pos` of a buffer (out-of-range cells
read as 0; used only under a bounds check). -/
def byteAt (l : List Nat) (pos : Nat) : Nat :=
  l.getD pos 0 % 256

/-- Additive sum of all bytes of a buffer. -/
def byteSum (l : List Nat) : Nat :=
  (l.map (fun b => b % 256)).sum

/-- Additive sum of all bytes of a buffer other than the checksum byte
at offset 5. -/
def othersSum (l : List Nat) : Nat :=
  byteSum (l.take 5) + byteSum (l.drop 6)

/-- `readByte(pos)`.  Modelled from the spec: reads one byte at `pos`,
OutOfRange (`none`) when `pos + 1` exceeds the buffer length. -/
def PropellerImage.readByte (img : PropellerImage) (pos : Nat) : Option Nat :=
  if pos + 1 ≤ img._image.length then some (byteAt img._image pos) else none

/-- `readWord(pos)`.  Modelled from the spec: reads two bytes at `pos`
as a little-endian unsigned word, OutOfRange (`none`) when `pos + 2`
exceeds the buffer length. -/
def PropellerImage.readWord (img : PropellerImage) (pos : Nat) : Option Nat :=
  if pos + 2 ≤ img._image.length then
    some (byteAt img._image pos + 256 * byteAt img._image (pos + 1))
  else none

/-- `readLong(pos)`.  Modelled from the spec: reads four bytes at `pos`
as a little-endian unsigned long, OutOfRange (`none`) when `pos + 4`
exceeds the buffer length. -/
def PropellerImage.readLong (img : PropellerImage) (pos : Nat) : Option Nat :=
  if pos + 4 ≤ img._image.length then
    some (byteAt img._image pos + 256 * byteAt img._image (pos + 1) +
          65536 * byteAt img._image (pos + 2) + 16777216 * byteAt img._image (pos + 3))
  else none

/-- `writeByte(pos, value)`.  Modelled from the spec: bounds-checked
little-endian write of one byte; a write past the current buffer length
is rejected (the buffer is left unchanged).  The C++ member returns
`void`: the new object state is the only outcome. -/
def PropellerImage.writeByte (img : PropellerImage) (pos value : Nat) : PropellerImage :=
  if pos + 1 ≤ img._image.length then
    { img with _image := img._image.set pos (value % 256) }
  else img

/-- `writeWord(pos, value)`.  Modelled from the spec: bounds-checked
little-endian write of two bytes; a write past the current buffer
length is rejected. -/
def PropellerImage.writeWord (img : PropellerImage) (pos value : Nat) : PropellerImage :=
  if pos + 2 ≤ img._image.length then
    { img with _image :=
        (img._image.set pos (value % 256)).set (pos + 1) (value / 256 % 256) }
  else img

/-- `writeLong(pos, value)`.  Modelled from the spec: bounds-checked
little-endian write of four bytes; a write past the current buffer
length is rejected. -/
def PropellerImage.writeLong (img : PropellerImage) (pos value : Nat) : PropellerImage :=
  if pos + 4 ≤ img._image.length then
    { img with _image :=
        (((img._image.set pos (value % 256)).set (pos + 1) (value / 256 % 256)).set
          (pos + 2) (value / 65536 % 256)).set (pos + 3) (value / 16777216 % 256) }
  else img

/-- `checksum()`.  Modelled from the spec: the byte value that, written
at offset 5, makes the additive sum of all bytes equal 0 mod 256,
computed as `0 - (sum of all other bytes)` mod 256. -/
def PropellerImage.checksum (img : PropellerImage) : Nat :=
  (256 - othersSum img._image % 256) % 256

/-- `checksumIsValid()`.  Modelled from the spec: true iff the sum of
all bytes currently in the buffer (the stored checksum byte included)
is 0 mod 256. -/
def PropellerImage.checksumIsValid (img : PropellerImage) : Bool :=
  byteSum img._image % 256 == 0

/-- `recalculateChecksum()`.  Modelled from the spec: writes the result
of `checksum()` into offset 5 and returns whether the buffer was long
enough to do so (TooShort yields `false` and leaves the buffer
unchanged: the underlying write is bounds-checked). -/
def PropellerImage.recalculateChecksum (img : PropellerImage) : PropellerImage × Bool :=
  (img.writeByte _byte_checksum img.checksum,
   decide (_byte_checksum + 1 ≤ img._image.length))

/-- `startOfCode()`.  Modelled from the spec: the header word at offset
6, read via `readWord`. -/
def PropellerImage.startOfCode (img : PropellerImage) : Option Nat :=
  img.readWord _word_code

/-- `startOfVariables()`.  Modelled from the spec: the header word at
offset 8, read via `readWord`. -/
def PropellerImage.startOfVariables (img : PropellerImage) : Option Nat :=
  img.readWord _word_variables

/-- `startOfStackSpace()`.  Modelled from the spec: the header word at
offset 10, read via `readWord`. -/
def PropellerImage.startOfStackSpace (img : PropellerImage) : Option Nat :=
  img.readWord _word_stackspace

/-- `imageType()`.  Modelled from the spec: `Eeprom` when the buffer
length equals 32768, `Binary` when the length is at least 16, below
32768 and the start-of-code word equals 16, `Invalid` otherwise.
Recomputed on demand from the current buffer, never cached. -/
def PropellerImage.imageType (img : PropellerImage) : ImageType :=
  if img._image.length = _size_eeprom then ImageType.Eeprom
  else if 16 ≤ img._image.length ∧ img._image.length < _size_eeprom ∧
            img.startOfCode = some 16 then ImageType.Binary
  else ImageType.Invalid

/-- The legal buffer-length range of each classified image type.
Modelled from the spec: an EEPROM image is exactly 32768 bytes, a
binary image is at least 16 and strictly below 32768 bytes, an invalid
image has no legal length. -/
def lengthInLegalRange (t : ImageType) (len : Nat) : Bool :=
  match t with
  | ImageType.Eeprom => len == _size_eeprom
  | ImageType.Binary => decide (16 ≤ len) && decide (len < _size_eeprom)
  | ImageType.Invalid => false

/-- `isValid()`.  Modelled from the spec: true iff `startOfCode() == 16`
and `checksumIsValid()` and the buffer length is within the legal range
of the classified type. -/
def PropellerImage.isValid (img : PropellerImage) : Bool :=
  img.startOfCode == some 16 && img.checksumIsValid &&
    lengthInLegalRange img.imageType img._image.length

/-- `imageSize()`.  Modelled from the spec: the buffer length. -/
def PropellerImage.imageSize (img : PropellerImage) : Nat :=
  img._image.length

/-- `programSize()`.  Modelled from the spec:
`startOfVariables - startOfCode` (an `int` in the source, hence `Int`
here); TooShort (`none`) when the header words cannot be read. -/
def PropellerImage.programSize (img : PropellerImage) : Option Int :=
  match img.startOfVariables, img.startOfCode with
  | some v, some c => some ((v : Int) - (c : Int))
  | _, _ => none

/-- `variableSize()`.  Modelled from the spec:
`startOfStackSpace - startOfVariables`; TooShort (`none`) when the
header words cannot be read. -/
def PropellerImage.variableSize (img : PropellerImage) : Option Int :=
  match img.startOfStackSpace, img.startOfVariables with
  | some s, some v => some ((s : Int) - (v : Int))
  | _, _ => none

/-- `stackSize()`.  Modelled from the spec:
`imageSize - startOfStackSpace` when the classified type is `Eeprom`,
zero for `Binary` (binary images omit the zero-filled tail), undefined
(`none`) otherwise. -/
def PropellerImage.stackSize (img : PropellerImage) : Option Int :=
  match img.imageType, img.startOfStackSpace with
  | ImageType.Eeprom, some s => some ((img.imageSize : Int) - (s : Int))
  | ImageType.Binary, _ => some 0
  | _, _ => none

/-- `clockFrequency()`.  Modelled from the spec: the long at offset 0. -/
def PropellerImage.clockFrequency (img : PropellerImage) : Option Nat :=
  img.readLong _long_clockfrequency

/-- `setClockFrequency(frequency)`.  Modelled from the spec: writes the
long at offset 0. -/
def PropellerImage.setClockFrequency (img : PropellerImage) (frequency : Nat) : PropellerImage :=
  img.writeLong _long_clockfrequency frequency

/-- `clockMode()`.  Modelled from the spec: the byte at offset 4. -/
def PropellerImage.clockMode (img : PropellerImage) : Option Nat :=
  img.readByte _byte_clockmode

/-- `setClockMode(value)`.  Modelled from the spec: a validated write
that fails (returns `false`, InvalidClockMode) when `value` is not a
recognized key of the clock-mode table, and otherwise writes the byte
at offset 4 and succeeds. -/
def PropellerImage.setClockMode (img : PropellerImage) (value : Nat) : PropellerImage × Bool :=
  if value ∈ img.clkmodeKeys then (img.writeByte _byte_clockmode value, true)
  else (img, false)

/-! ## Helper lemmas about buffers -/

theorem byteAt_set_self (l : List Nat) {pos : Nat} (v : Nat) (h : pos < l.length) :
    byteAt (l.set pos v) pos = v % 256 := by
  simp [byteAt, List.getElem?_set_self h]

theorem byteAt_set_other (l : List Nat) {i j : Nat} (v : Nat) (h : i ≠ j) :
    byteAt (l.set i v) j = byteAt l j := by
  simp [byteAt, List.getElem?_set_ne h]

theorem byteSum_append (l₁ l₂ : List Nat) :
    byteSum (l₁ ++ l₂) = byteSum l₁ + byteSum l₂ := by
  simp [byteSum]

theorem byteSum_set (l : List Nat) {pos : Nat} (v : Nat) (h : pos < l.length) :
    byteSum (l.set pos v) =
      byteSum (l.take pos) + v % 256 + byteSum (l.drop (pos + 1))  := by
  rw [List.set_eq_take_cons_drop v h, byteSum_append]
  simp [byteSum]
  omega

theorem byteSum_split (l : List Nat) {pos : Nat} (h : pos < l.length) :
    byteSum l = byteSum (l.take pos) + byteAt l pos + byteSum (l.drop (pos + 1)) := by
  induction l generalizing pos with
  | nil => simp at h
  | cons a t ih =>
    cases pos with
    | zero => simp [byteSum, byteAt]
    | succ p =>
      have hp : p < t.length := by simpa using h
      have := ih hp
      simp only [List.take_succ_cons, List.drop_succ_cons, byteSum, List.map_cons,
        List.sum_cons, byteAt, List.getD_eq_getElem?_getD, List.getElem?_cons_succ] at *
      omega

/-- Writing a byte `b` at offset 5 of a buffer of length at least 6
leaves the sum of the other bytes unchanged and stores `b % 256`. -/
theorem byteSum_writeByte5 (l : List Nat) (b : Nat) (h : 6 ≤ l.length) :
    byteSum (l.set 5 (b % 256)) = othersSum l + b % 256 := by
  have h5 : 5 < l.length := by omega
  rw [byteSum_set l (b % 256) h5]
  unfold othersSum
  simp only [Nat.mod_mod, Nat.reduceAdd]
  omega

theorem othersSum_of_set5 (l : List Nat) (b : Nat) :
    othersSum (l.set 5 b) = othersSum l := by
  unfold othersSum
  rw [List.set_take, List.drop_set,
      List.set_eq_of_length_le (List.length_take_le 5 l), if_pos (by omega)]

/-- The computed checksum is a byte value. -/
theorem checksum_lt_256 (img : PropellerImage) : img.checksum < 256 := by
  unfold PropellerImage.checksum
  omega

/-! ## Sample images used by witnesses -/

/-- A 6-byte buffer, long enough for the checksum field. -/
def sampleImage : PropellerImage := ⟨[1, 2, 3, 4, 5, 6], "sample", [0, 1]⟩

/-- A 3-byte buffer, too short for the checksum field. -/
def shortImage : PropellerImage := ⟨[9, 9, 9], "short", [0, 1]⟩

/-- A 16-byte buffer with the start-of-code word set to 16 and a
correct checksum byte (240), classifying as a valid Binary image. -/
def sampleValid : PropellerImage :=
  ⟨[0, 0, 0, 0, 0, 240, 16, 0, 0, 0, 0, 0, 0, 0, 0, 0], "valid", [0, 1]⟩

/-! ## Claims -/

/-- C1: for every buffer of length at least 6, `checksum()` is a byte
value; writing it at offset 5 makes the additive sum of all bytes 0 mod
256; it is the unique such byte; and it is the additive complement
`0 - (sum of all other bytes) mod 256` of the other bytes, not the byte
currently stored at offset 5. -/
theorem checksum_spec (img : PropellerImage) (h : 6 ≤ img._image.length) :
    img.checksum < 256 ∧
    byteSum ((img.writeByte 5 img.checksum)._image) % 256 = 0 ∧
    (∀ b : Nat, b < 256 → byteSum ((img.writeByte 5 b)._image) % 256 = 0 →
      b = img.checksum) ∧
    (img.checksum + othersSum img._image) % 256 = 0 := by
  have hw : ∀ b : Nat, (img.writeByte 5 b)._image = img._image.set 5 (b % 256) := by
    intro b
    unfold PropellerImage.writeByte
    rw [if_pos (by omega)]
  refine ⟨checksum_lt_256 img, ?_, ?_, ?_⟩
  · rw [hw, byteSum_writeByte5 _ _ h]
    unfold PropellerImage.checksum
    omega
  · intro b hb hsum
    rw [hw, byteSum_writeByte5 _ _ h] at hsum
    unfold PropellerImage.checksum
    omega
  · unfold PropellerImage.checksum
    omega

/-- Witness for C1 at a concrete 6-byte buffer. -/
theorem checksum_spec_witness :
    6 ≤ sampleImage._image.length ∧
    (sampleImage.checksum < 256 ∧
     byteSum ((sampleImage.writeByte 5 sampleImage.checksum)._image) % 256 = 0 ∧
     (∀ b : Nat, b < 256 →
        byteSum ((sampleImage.writeByte 5 b)._image) % 256 = 0 →
        b = sampleImage.checksum) ∧
     (sampleImage.checksum + othersSum sampleImage._image) % 256 = 0) :=
  ⟨by decide, checksum_spec sampleImage (by decide)⟩

/-- C2: `imageType()` is `Eeprom` exactly when the buffer length equals
32768; `Binary` exactly when the length is at least 16, strictly below
32768 and `startOfCode()` equals 16; `Invalid` in every other case; and
the classification is a function of the current buffer alone, never a
stale cached value. -/
theorem imageType_spec (img : PropellerImage) :
    (img.imageType = ImageType.Eeprom ↔ img._image.length = 32768) ∧
    (img.imageType = ImageType.Binary ↔
      16 ≤ img._image.length ∧ img._image.length < 32768 ∧
        img.startOfCode = some 16) ∧
    (img.imageType = ImageType.Invalid ↔
      img._image.length ≠ 32768 ∧
      ¬ (16 ≤ img._image.length ∧ img._image.length < 32768 ∧
           img.startOfCode = some 16)) ∧
    (∀ img' : PropellerImage, img'._image = img._image →
      img'.imageType = img.imageType) := by
  have hmut : ∀ img' : PropellerImage, img'._image = img._image →
      img'.imageType = img.imageType := by
    intro img' he
    unfold PropellerImage.imageType PropellerImage.startOfCode PropellerImage.readWord
    rw [he]
  refine ⟨?_, ?_, ?_, hmut⟩ <;>
    · unfold PropellerImage.imageType _size_eeprom
      split_ifs with h1 h2 <;> simp_all

/-- Witness for C2 at a concrete 16-byte Binary image. -/
theorem imageType_spec_witness : sampleValid.imageType = ImageType.Binary :=
  (imageType_spec sampleValid).2.1.mpr ⟨by decide, by decide, by decide⟩

/-- C3: `isValid()` is true exactly when `startOfCode()` equals 16,
`checksumIsValid()` holds, and the buffer length lies in the legal
range of the classified image type; unfolded, that is: the word at
offset 6 reads 16, the byte sum is 0 mod 256, and the length is 32768
or lies in [16, 32768). -/
theorem isValid_spec (img : PropellerImage) :
    (img.isValid = true ↔
      img.startOfCode = some 16 ∧ img.checksumIsValid = true ∧
      lengthInLegalRange img.imageType img._image.length = true) ∧
    (img.isValid = true ↔
      img.readWord 6 = some 16 ∧ byteSum img._image % 256 = 0 ∧
      (img._image.length = 32768 ∨
        16 ≤ img._image.length ∧ img._image.length < 32768)) := by
  have hsoc : img.startOfCode = img.readWord 6 := rfl
  have h1 : img.isValid = true ↔
      img.startOfCode = some 16 ∧ img.checksumIsValid = true ∧
      lengthInLegalRange img.imageType img._image.length = true := by
    unfold PropellerImage.isValid
    simp [and_assoc]
  have hcv : img.checksumIsValid = true ↔ byteSum img._image % 256 = 0 := by
    unfold PropellerImage.checksumIsValid
    simp
  have hlegal : img.startOfCode = some 16 →
      (lengthInLegalRange img.imageType img._image.length = true ↔
        (img._image.length = 32768 ∨
          16 ≤ img._image.length ∧ img._image.length < 32768)) := by
    intro hs
    unfold lengthInLegalRange PropellerImage.imageType _size_eeprom
    split_ifs with ha hb
    · simp [ha]
    · simp only [Bool.and_eq_true, decide_eq_true_eq]
      omega
    · have hb' : ¬ (16 ≤ img._image.length ∧ img._image.length < 32768) :=
        fun hcon => hb ⟨hcon.1, hcon.2, hs⟩
      simp only [Bool.false_eq_true, false_iff]
      omega
  refine ⟨h1, h1.trans ?_⟩
  rw [hsoc] at hlegal ⊢
  constructor
  · rintro ⟨hs, hc, hr⟩
    exact ⟨hs, hcv.mp hc, (hlegal hs).mp hr⟩
  · rintro ⟨hs, hc, hr⟩
    exact ⟨hs, hcv.mpr hc, (hlegal hs).mpr hr⟩

/-- Witness for C3 at a concrete valid Binary image. -/
theorem isValid_spec_witness : sampleValid.isValid = true :=
  (isValid_spec sampleValid).2.mpr
    ⟨by decide, by decide, Or.inr ⟨by decide, by decide⟩⟩

/-- C4: `checksumIsValid()` is true exactly when the additive sum of
all bytes currently in the buffer, the stored checksum byte at offset 5
included, is 0 mod 256; equivalently, for buffers of length at least 6,
exactly when the stored byte at offset 5 equals the computed
`checksum()`. -/
theorem checksumIsValid_spec (img : PropellerImage) :
    (img.checksumIsValid = true ↔ byteSum img._image % 256 = 0) ∧
    (6 ≤ img._image.length →
      (img.checksumIsValid = true ↔ byteAt img._image 5 = img.checksum)) := by
  have h1 : img.checksumIsValid = true ↔ byteSum img._image % 256 = 0 := by
    unfold PropellerImage.checksumIsValid
    simp
  refine ⟨h1, fun h => h1.trans ?_⟩
  have hsplit := byteSum_split img._image (show 5 < img._image.length by omega)
  norm_num at hsplit
  have hb : byteAt img._image 5 < 256 := Nat.mod_lt _ (by norm_num)
  unfold PropellerImage.checksum othersSum
  constructor <;> intro hx <;> omega

/-- Witness for C4 at a concrete valid image. -/
theorem checksumIsValid_spec_witness :
    byteAt sampleValid._image 5 = sampleValid.checksum :=
  ((checksumIsValid_spec sampleValid).2 (by decide)).mp (by decide)

/-- C5: for every buffer of length at least 16, `programSize()` equals
`startOfVariables() - startOfCode()`, `variableSize()` equals
`startOfStackSpace() - startOfVariables()`, `imageSize()` equals the
buffer length, and `stackSize()` equals
`imageSize() - startOfStackSpace()` for an `Eeprom` image and zero for
a `Binary` image. -/
theorem sizes_spec (img : PropellerImage) (h : 16 ≤ img._image.length) :
    img.programSize =
      some ((img.startOfVariables.getD 0 : Int) - (img.startOfCode.getD 0 : Int)) ∧
    img.variableSize =
      some ((img.startOfStackSpace.getD 0 : Int) - (img.startOfVariables.getD 0 : Int)) ∧
    img.imageSize = img._image.length ∧
    (img.imageType = ImageType.Eeprom →
      img.stackSize =
        some ((img.imageSize : Int) - (img.startOfStackSpace.getD 0 : Int))) ∧
    (img.imageType = ImageType.Binary → img.stackSize = some 0) := by
  have hc : img.startOfCode = some (byteAt img._image 6 + 256 * byteAt img._image 7) := by
    unfold PropellerImage.startOfCode PropellerImage.readWord _word_code
    rw [if_pos (by omega)]
  have hv : img.startOfVariables =
      some (byteAt img._image 8 + 256 * byteAt img._image 9) := by
    unfold PropellerImage.startOfVariables PropellerImage.readWord _word_variables
    rw [if_pos (by omega)]
  have hs : img.startOfStackSpace =
      some (byteAt img._image 10 + 256 * byteAt img._image 11) := by
    unfold PropellerImage.startOfStackSpace PropellerImage.readWord _word_stackspace
    rw [if_pos (by omega)]
  refine ⟨?_, ?_, rfl, ?_, ?_⟩
  · unfold PropellerImage.programSize
    rw [hc, hv]
    simp
  · unfold PropellerImage.variableSize
    rw [hs, hv]
    simp
  · intro ht
    unfold PropellerImage.stackSize
    rw [ht, hs]
    simp
  · intro ht
    unfold PropellerImage.stackSize
    rw [ht, hs]

/-- Witness for C5 at a concrete 16-byte buffer. -/
theorem sizes_spec_witness :
    16 ≤ sampleValid._image.length ∧
    (sampleValid.programSize =
       some ((sampleValid.startOfVariables.getD 0 : Int) -
             (sampleValid.startOfCode.getD 0 : Int)) ∧
     sampleValid.variableSize =
       some ((sampleValid.startOfStackSpace.getD 0 : Int) -
             (sampleValid.startOfVariables.getD 0 : Int)) ∧
     sampleValid.imageSize = sampleValid._image.length ∧
     (sampleValid.imageType = ImageType.Eeprom →
       sampleValid.stackSize =
         some ((sampleValid.imageSize : Int) -
               (sampleValid.startOfStackSpace.getD 0 : Int))) ∧
     (sampleValid.imageType = ImageType.Binary → sampleValid.stackSize = some 0)) :=
  ⟨by decide, sizes_spec sampleValid (by decide)⟩

/-- C6: `recalculateChecksum()` writes `checksum()` into offset 5 and
returns whether the buffer was long enough: for buffers of length at
least 6 it writes the byte, makes the checksum valid and returns true;
for shorter buffers it returns false and leaves the image unchanged. -/
theorem recalculateChecksum_spec (img : PropellerImage) :
    (6 ≤ img._image.length →
      (img.recalculateChecksum.2 = true ∧
       img.recalculateChecksum.1._image = img._image.set 5 img.checksum ∧
       img.recalculateChecksum.1.checksumIsValid = true)) ∧
    (img._image.length < 6 →
      (img.recalculateChecksum.2 = false ∧ img.recalculateChecksum.1 = img)) := by
  unfold PropellerImage.recalculateChecksum PropellerImage.writeByte _byte_checksum
  constructor
  · intro h
    have h6 : 5 + 1 ≤ img._image.length := by omega
    rw [if_pos h6]
    refine ⟨by simp [h6], ?_, ?_⟩
    · simp [Nat.mod_eq_of_lt (checksum_lt_256 img)]
    · show (byteSum (img._image.set 5 (img.checksum % 256)) % 256 == 0) = true
      rw [byteSum_writeByte5 _ _ h]
      simp only [beq_iff_eq]
      unfold PropellerImage.checksum
      omega
  · intro h
    rw [if_neg (by omega)]
    exact ⟨by simp; omega, rfl⟩

/-- Witness for C6: the long-enough case at a 6-byte buffer, the
TooShort case at a 3-byte buffer. -/
theorem recalculateChecksum_spec_witness :
    (6 ≤ sampleImage._image.length ∧
      (sampleImage.recalculateChecksum.2 = true ∧
       sampleImage.recalculateChecksum.1._image =
         sampleImage._image.set 5 sampleImage.checksum ∧
       sampleImage.recalculateChecksum.1.checksumIsValid = true)) ∧
    (shortImage._image.length < 6 ∧
      (shortImage.recalculateChecksum.2 = false ∧
       shortImage.recalculateChecksum.1 = shortImage)) :=
  ⟨⟨by decide, (recalculateChecksum_spec sampleImage).1 (by decide)⟩,
   ⟨by decide, (recalculateChecksum_spec shortImage).2 (by decide)⟩⟩

/-- C7: for every 8-bit value and every buffer on which offset 4 is
addressable, `setClockMode(value)` succeeds exactly when `value` is a
key of the clock-mode table; on success it writes the byte at offset 4
and `clockMode()` then returns exactly `value`; on failure the image is
unchanged. -/
theorem setClockMode_spec (img : PropellerImage) (value : Nat)
    (hlen : 5 ≤ img._image.length) (hv : value < 256) :
    ((img.setClockMode value).2 = true ↔ value ∈ img.clkmodeKeys) ∧
    (value ∈ img.clkmodeKeys →
      ((img.setClockMode value).1.clockMode = some value ∧
       (img.setClockMode value).1._image = img._image.set 4 value)) ∧
    (value ∉ img.clkmodeKeys → (img.setClockMode value).1 = img) := by
  unfold PropellerImage.setClockMode PropellerImage.writeByte _byte_clockmode
  by_cases hm : value ∈ img.clkmodeKeys
  · rw [if_pos hm, if_pos (by omega)]
    refine ⟨by simp [hm], fun _ => ⟨?_, ?_⟩, fun hc => absurd hm hc⟩
    · unfold PropellerImage.clockMode PropellerImage.readByte _byte_clockmode
      rw [if_pos (by simp; omega)]
      simp [byteAt_set_self _ _ (show 4 < img._image.length by omega),
            Nat.mod_eq_of_lt hv]
    · simp [Nat.mod_eq_of_lt hv]
  · rw [if_neg hm]
    exact ⟨by simp [hm], fun hc => absurd hc hm, fun _ => rfl⟩

/-- Witness for C7 at a recognized key (1) of a concrete image. -/
theorem setClockMode_spec_witness :
    5 ≤ sampleValid._image.length ∧ (1 : Nat) < 256 ∧
    (((sampleValid.setClockMode 1).2 = true ↔ 1 ∈ sampleValid.clkmodeKeys) ∧
     (1 ∈ sampleValid.clkmodeKeys →
       (((sampleValid.setClockMode 1).1.clockMode = some 1) ∧
        (sampleValid.setClockMode 1).1._image = sampleValid._image.set 4 1)) ∧
     (1 ∉ sampleValid.clkmodeKeys → (sampleValid.setClockMode 1).1 = sampleValid)) :=
  ⟨by decide, by decide, setClockMode_spec sampleValid 1 (by decide) (by decide)⟩

/-- C8: writing then reading round-trips at every in-range position:
after `writeByte(pos, v)`, `readByte(pos)` returns `v`; after
`writeWord(pos, v)`, `readWord(pos)` returns `v`; after
`writeLong(pos, v)`, `readLong(pos)` returns `v`. -/
theorem write_read_roundtrip (img : PropellerImage) (pos : Nat) :
    (∀ v : Nat, v < 256 → pos + 1 ≤ img._image.length →
      (img.writeByte pos v).readByte pos = some v) ∧
    (∀ v : Nat, v < 65536 → pos + 2 ≤ img._image.length →
      (img.writeWord pos v).readWord pos = some v) ∧
    (∀ v : Nat, v < 4294967296 → pos + 4 ≤ img._image.length →
      (img.writeLong pos v).readLong pos = some v) := by
  refine ⟨?_, ?_, ?_⟩
  · intro v hv h
    unfold PropellerImage.writeByte PropellerImage.readByte
    rw [if_pos h, if_pos (by simp only [List.length_set]; omega),
        byteAt_set_self _ _ (by omega)]
    simp only [Option.some.injEq]
    omega
  · intro v hv h
    unfold PropellerImage.writeWord PropellerImage.readWord
    rw [if_pos h, if_pos (by simp only [List.length_set]; omega),
        byteAt_set_other _ _ (show pos + 1 ≠ pos by omega),
        byteAt_set_self _ _ (show pos < img._image.length by omega),
        byteAt_set_self _ _ (show pos + 1 < (img._image.set pos (v % 256)).length by
          simp only [List.length_set]; omega)]
    simp only [Option.some.injEq]
    omega
  · intro v hv h
    unfold PropellerImage.writeLong PropellerImage.readLong
    rw [if_pos h, if_pos (by simp only [List.length_set]; omega),
        byteAt_set_other _ _ (show pos + 3 ≠ pos by omega),
        byteAt_set_other _ _ (show pos + 2 ≠ pos by omega),
        byteAt_set_other _ _ (show pos + 1 ≠ pos by omega),
        byteAt_set_self _ _ (show pos < img._image.length by omega),
        byteAt_set_other _ _ (show pos + 3 ≠ pos + 1 by omega),
        byteAt_set_other _ _ (show pos + 2 ≠ pos + 1 by omega),
        byteAt_set_self _ _ (show pos + 1 < (img._image.set pos (v % 256)).length by
          simp only [List.length_set]; omega),
        byteAt_set_other _ _ (show pos + 3 ≠ pos + 2 by omega),
        byteAt_set_self _ _ (show pos + 2 <
            ((img._image.set pos (v % 256)).set (pos + 1) (v / 256 % 256)).length by
          simp only [List.length_set]; omega),
        byteAt_set_self _ _ (show pos + 3 <
            (((img._image.set pos (v % 256)).set (pos + 1) (v / 256 % 256)).set
              (pos + 2) (v / 65536 % 256)).length by
          simp only [List.length_set]; omega)]
    simp only [Option.some.injEq]
    omega

/-- Witness for C8 at position 0 of a concrete 16-byte buffer, one
instance per width. -/
theorem write_read_roundtrip_witness :
    ((7 : Nat) < 256 ∧ (sampleValid.writeByte 0 7).readByte 0 = some 7) ∧
    ((777 : Nat) < 65536 ∧ (sampleValid.writeWord 0 777).readWord 0 = some 777) ∧
    ((77777 : Nat) < 4294967296 ∧
      (sampleValid.writeLong 0 77777).readLong 0 = some 77777) :=
  ⟨⟨by decide, (write_read_roundtrip sampleValid 0).1 7 (by decide) (by decide)⟩,
   ⟨by decide, (write_read_roundtrip sampleValid 0).2.1 777 (by decide) (by decide)⟩,
   ⟨by decide,
    (write_read_roundtrip sampleValid 0).2.2 77777 (by decide) (by decide)⟩⟩

/-- The header fields that are exposed through a dedicated accessor of
the class declaration (`clockFrequency`, `clockMode`, `checksum`,
`startOfCode`, `startOfVariables`, `startOfStackSpace`). -/
inductive HeaderField where
  | clockFrequency
  | clockMode
  | checksumByte
  | startOfCode
  | startOfVariables
  | startOfStackSpace
deriving DecidableEq, Repr

/-- The fixed buffer offset of each accessor-backed header field, from
the `ImageFormat` enumeration of the header. -/
def HeaderField.offset : HeaderField → Nat
  | HeaderField.clockFrequency => _long_clockfrequency
  | HeaderField.clockMode => _byte_clockmode
  | HeaderField.checksumByte => _byte_checksum
  | HeaderField.startOfCode => _word_code
  | HeaderField.startOfVariables => _word_variables
  | HeaderField.startOfStackSpace => _word_stackspace

/-- The width in bytes of each accessor-backed header field, from the
documented layout table of the header. -/
def HeaderField.width : HeaderField → Nat
  | HeaderField.clockFrequency => 4
  | HeaderField.clockMode => 1
  | HeaderField.checksumByte => 1
  | HeaderField.startOfCode => 2
  | HeaderField.startOfVariables => 2
  | HeaderField.startOfStackSpace => 2

/-- Offset of the Current Program pointer word: documented in the
layout table of the header, but backed by no dedicated accessor. -/
def currentProgramOffset : Nat := 12

/-- Offset of the Current Stack Space pointer word: documented in the
layout table of the header, but backed by no dedicated accessor. -/
def currentStackSpaceOffset : Nat := 14

/-- C9: on every buffer of length at least 16 the fixed header fits in
offsets 0 through 15; the Current Program pointer is the little-endian
word at offset 12 and the Current Stack Space pointer the little-endian
word at offset 14, both readable through `readWord`; and no
accessor-backed header field sits at either of those two offsets. -/
theorem header_pointer_words_spec (img : PropellerImage)
    (h : 16 ≤ img._image.length) :
    img.readWord currentProgramOffset =
      some (byteAt img._image 12 + 256 * byteAt img._image 13) ∧
    img.readWord currentStackSpaceOffset =
      some (byteAt img._image 14 + 256 * byteAt img._image 15) ∧
    (∀ f : HeaderField, f.offset + f.width ≤ 16) ∧
    (∀ f : HeaderField, f.offset ≠ currentProgramOffset ∧
        f.offset ≠ currentStackSpaceOffset) := by
  refine ⟨?_, ?_, ?_, ?_⟩
  · unfold PropellerImage.readWord currentProgramOffset
    rw [if_pos (by omega)]
  · unfold PropellerImage.readWord currentStackSpaceOffset
    rw [if_pos (by omega)]
  · intro f
    cases f <;> decide
  · intro f
    cases f <;> exact ⟨by decide, by decide⟩

/-- Witness for C9 at a concrete 16-byte buffer. -/
theorem header_pointer_words_spec_witness :
    16 ≤ sampleValid._image.length ∧
    (sampleValid.readWord currentProgramOffset =
       some (byteAt sampleValid._image 12 + 256 * byteAt sampleValid._image 13) ∧
     sampleValid.readWord currentStackSpaceOffset =
       some (byteAt sampleValid._image 14 + 256 * byteAt sampleValid._image 15) ∧
     (∀ f : HeaderField, f.offset + f.width ≤ 16) ∧
     (∀ f : HeaderField, f.offset ≠ currentProgramOffset ∧
         f.offset ≠ currentStackSpaceOffset)) :=
  ⟨by decide, header_pointer_words_spec sampleValid (by decide)⟩

/-- State-passing form of `writeByte` with the C++ return value made
explicit: the member is declared `void`, so the returned value is the
unit value and the mutated object is the only outcome. -/
def PropellerImage.writeByteResult (img : PropellerImage) (pos value : Nat) :
    PropellerImage × Unit :=
  (img.writeByte pos value, ())

/-- State-passing form of `writeWord` with the `void` C++ return value
made explicit. -/
def PropellerImage.writeWordResult (img : PropellerImage) (pos value : Nat) :
    PropellerImage × Unit :=
  (img.writeWord pos value, ())

/-- State-passing form of `writeLong` with the `void` C++ return value
made explicit. -/
def PropellerImage.writeLongResult (img : PropellerImage) (pos value : Nat) :
    PropellerImage × Unit :=
  (img.writeLong pos value, ())

/-- C10: the low-level writers are declared `void`: every call returns
the same (unit) value as every other call, so an out-of-range write —
which leaves the buffer unchanged — cannot be told apart from a
successful one by inspecting the returned value alone. -/
theorem writers_return_void (img img₂ : PropellerImage) (pos pos₂ v v₂ : Nat) :
    (img.writeByteResult pos v).2 = (img₂.writeByteResult pos₂ v₂).2 ∧
    (img.writeWordResult pos v).2 = (img₂.writeWordResult pos₂ v₂).2 ∧
    (img.writeLongResult pos v).2 = (img₂.writeLongResult pos₂ v₂).2 ∧
    (img._image.length < pos + 1 → (img.writeByteResult pos v).1 = img) ∧
    (img._image.length < pos + 2 → (img.writeWordResult pos v).1 = img) ∧
    (img._image.length < pos + 4 → (img.writeLongResult pos v).1 = img) := by
  refine ⟨rfl, rfl, rfl, ?_, ?_, ?_⟩
  · intro h
    show img.writeByte pos v = img
    unfold PropellerImage.writeByte
    rw [if_neg (by omega)]
  · intro h
    show img.writeWord pos v = img
    unfold PropellerImage.writeWord
    rw [if_neg (by omega)]
  · intro h
    show img.writeLong pos v = img
    unfold PropellerImage.writeLong
    rw [if_neg (by omega)]

/-- Witness for C10: an out-of-range write on a 3-byte buffer returns
the same value as an in-range write on a 6-byte buffer. -/
theorem writers_return_void_witness :
    (shortImage.writeByteResult 10 7).2 = (sampleImage.writeByteResult 0 9).2 ∧
    (shortImage.writeWordResult 10 7).2 = (sampleImage.writeWordResult 0 9).2 ∧
    (shortImage.writeLongResult 10 7).2 = (sampleImage.writeLongResult 0 9).2 ∧
    shortImage._image.length < 10 + 1 ∧
    (shortImage.writeByteResult 10 7).1 = shortImage ∧
    (shortImage.writeWordResult 10 7).1 = shortImage ∧
    (shortImage.writeLongResult 10 7).1 = shortImage := by
  have h := writers_return_void shortImage sampleImage 10 0 7 9
  exact ⟨h.1, h.2.1, h.2.2.1, by decide, h.2.2.2.1 (by decide),
         h.2.2.2.2.1 (by decide), h.2.2.2.2.2 (by decide)⟩

end Propman
